import Mathlib

/-
  Verification development for the Astha-App repository (two React front-end
  variants in src/App.tsx, remote-client code in src/services/aiService.ts and
  src/unnamed/part_000, shared types in src/types.ts).

  The definitions below are shallow embeddings of the source functions: pure
  computations are Lean functions, the stateful playback logic is explicit
  state passing over a state record, fallible code returns Except, and the
  outcomes of remote calls and of the JSON.parse platform primitive are
  supplied as explicit parameters.
-/

namespace AsthaApp

/-- A JSON value, as produced by the JavaScript JSON.parse primitive.
Numbers are modelled as integers (no numeric field is ever inspected by the
code under study). -/
inductive Json where
  | null : Json
  | bool (b : Bool) : Json
  | num (n : Int) : Json
  | str (s : String) : Json
  | arr (elems : List Json) : Json
  | obj (fields : List (String × Json)) : Json

/-- Field lookup on a JSON object: the value of the first binding of key `k`,
or `none` when the value is not an object or the key is absent. -/
def jsonGetField : Json → String → Option Json
  | .obj fields, k => (fields.find? (fun f => f.1 == k)).map (fun f => f.2)
  | _, _ => none

/-- Whether a parsed response carries a writtenStyle object containing all
five required fields (topicName, simpleMeaning, stepByStep, easyExample,
shortSummary), the shape the ExplanationResult data model requires. -/
def hasAllWrittenStyle (j : Json) : Bool :=
  match jsonGetField j "writtenStyle" with
  | some w =>
      (jsonGetField w "topicName").isSome &&
      (jsonGetField w "simpleMeaning").isSome &&
      (jsonGetField w "stepByStep").isSome &&
      (jsonGetField w "easyExample").isSome &&
      (jsonGetField w "shortSummary").isSome
  | none => false

/-- Embeds the response handling of getTeacherExplanation
(src/services/aiService.ts lines 40-68). After the awaited backend call the
function executes `return JSON.parse(response.text) as ExplanationResponse;`:
the outcome of the JSON.parse primitive on response.text is supplied here as
`parseResult`. A parse failure propagates as the thrown exception, unchanged;
a successful parse is returned through the compile-time-only `as` cast, which
performs no runtime validation of the object shape. -/
def getTeacherExplanation (parseResult : Except String Json) : Except String Json :=
  match parseResult with
  | .error e => .error e
  | .ok j => .ok j

/-- One part of a generateContent request or response: an optional text
payload and an optional inlineData payload (its base64 data string).
This is the shape both speech clients traverse. -/
structure Part where
  text : Option String
  inlineData : Option String
deriving DecidableEq

/-- The predicate of the search `parts.find(p => p.inlineData && p.inlineData.data)`
in src/unnamed/part_000 line 110: the part has an inlineData object whose
data string is truthy (non-empty). -/
def partHasAudioData (p : Part) : Bool :=
  match p.inlineData with
  | some d => !(d == "")
  | none => false

/-- Embeds getTeacherSpeech of src/services/aiService.ts lines 70-88.
The backend response is reduced to the parts list of its first candidate:
`partsOpt = none` models any break in the optional chain
`response.candidates?.[0]?.content?.parts`. The code reads
`parts?.[0]?.inlineData?.data` and throws when that value is falsy
(absent chain, absent first part, absent inlineData, or empty data string);
the thrown message is "Could not generate the voice of the teacher." in the
source, modelled by the error branch. -/
def getTeacherSpeech (partsOpt : Option (List Part)) : Except String String :=
  match partsOpt with
  | none => .error "no audio data"
  | some parts =>
    match parts.head? with
    | some p =>
      match p.inlineData with
      | some d => if d == "" then .error "no audio data" else .ok d
      | none => .error "no audio data"
    | none => .error "no audio data"

/-- Embeds getTeacherSpeech of src/unnamed/part_000 lines 88-121. The code
first throws when `response.candidates?.[0]?.content?.parts` is absent
(`partsOpt = none`), then searches the parts list for the first part with a
truthy inlineData.data, returns its data, and throws when the search fails. -/
def getTeacherSpeech000 (partsOpt : Option (List Part)) : Except String String :=
  match partsOpt with
  | none => .error "no response received"
  | some parts =>
    match parts.find? partHasAudioData with
    | some p => .ok (p.inlineData.getD "")
    | none => .error "audio data was missing"

/-- The text part assembled by getTeacherExplanation in
src/services/aiService.ts line 28: the JavaScript template
`Topic/Question: (text or default)`, where `text || default` substitutes the
fixed default prompt exactly when `text` is falsy, that is, empty. -/
def buildTextPart (text : String) : String :=
  "Topic/Question: " ++ (if text = "" then "Please explain what is in the image" else text)

/-- The text part assembled by getTeacherExplanation in src/unnamed/part_000
line 39, same structure with different wording. -/
def buildTextPart000 (text : String) : String :=
  "Topic/Homework: " ++ (if text = "" then "Please explain the content in the image" else text)

/-- The full parts list sent by getTeacherExplanation
(src/services/aiService.ts lines 28-38): the text part first, then, when
`imageBuffer` is truthy (present and non-empty), an inlineData part carrying
the base64 payload after the first comma of the data URL — index 1 of the
comma-split of imageBuffer, defaulting to undefined, here the empty string,
when no comma exists. -/
def explanationParts (text : String) (imageBuffer : Option String) : List Part :=
  { text := some (buildTextPart text), inlineData := none } ::
  (match imageBuffer with
   | some b => if b == "" then [] else [{ text := none, inlineData := some ((b.splitOn ",").getD 1 "") }]
   | none => [])

/-- Reads a little-endian signed 16-bit integer from two bytes, exactly as an
Int16Array element views two consecutive bytes of the underlying buffer on
the (little-endian) platforms the app targets: the unsigned value
lo + 256 * hi reinterpreted in two-complement. -/
def toInt16 (lo hi : Nat) : Int :=
  let u := lo + 256 * hi
  if u < 32768 then (u : Int) else (u : Int) - 65536

/-- The Int16Array view
`new Int16Array(data.buffer, data.byteOffset, data.byteLength / 2)` of
src/App.tsx line 23: consecutive byte pairs as little-endian int16 values; a
trailing odd byte is outside the view (the length argument byteLength / 2 is
floored by the ToIndex conversion) and is dropped. -/
def bytesToInt16 : List Nat → List Int
  | lo :: hi :: rest => toInt16 lo hi :: bytesToInt16 rest
  | _ => []

/-- The result of ctx.createBuffer after the copy loops: channel count, frame
count, sample rate and the per-channel sample sequences. Samples are exact
rationals; the JavaScript Float32 values are exact here because every written
sample is an int16 divided by 2 to the 15, representable in Float32. -/
structure JsAudioBuffer where
  numChannels : Nat
  frameCount : Nat
  sampleRate : Nat
  channels : List (List ℚ)
deriving DecidableEq

/-- Embeds decodeAudioData of src/App.tsx lines 17-34. The byte sequence is
viewed as little-endian int16 samples (trailing odd byte dropped); frameCount
is dataInt16.length / numChannels, floored on its way into createBuffer
(WebIDL unsigned long conversion), and the loop writes
channelData[i] = dataInt16[i * numChannels + channel] / 32768 for each frame
of each channel (a write past the Float32Array length is silently dropped,
so the floored frame count is what remains). The function never throws. -/
def decodeAudioData (data : List Nat) (sampleRate numChannels : Nat) : JsAudioBuffer :=
  let dataInt16 := bytesToInt16 data
  let frameCount := dataInt16.length / numChannels
  { numChannels := numChannels
    frameCount := frameCount
    sampleRate := sampleRate
    channels := (List.range numChannels).map (fun channel =>
      (List.range frameCount).map (fun i =>
        ((dataInt16.getD (i * numChannels + channel) 0 : ℚ) / 32768))) }

/-- Embeds decodeAudioData of src/App.tsx lines 450-467 (the second App
variant). Its only difference is `new Int16Array(data.buffer)` over the whole
buffer, which throws a RangeError when the byte length is odd; on even
lengths it behaves as the first variant. -/
def decodeAudioData450 (data : List Nat) (sampleRate numChannels : Nat) : Except String JsAudioBuffer :=
  if data.length % 2 = 1 then
    .error "RangeError: byte length of Int16Array should be a multiple of 2"
  else
    .ok (decodeAudioData data sampleRate numChannels)

/-- The playback-relevant state of the first App component
(src/App.tsx lines 36-148): the isPlaying and audioLoading flags, the
currentSourceRef reference (source nodes are named by Nat identifiers, fresh
ones drawn from nextId), the set of source nodes currently emitting audio
(active), and whether `result` is non-null (the play guard reads it). -/
structure PlaybackState where
  isPlaying : Bool
  audioLoading : Bool
  current : Option Nat
  active : List Nat
  nextId : Nat
  hasResult : Bool
deriving DecidableEq

/-- Embeds stopTeacherSpeech (src/App.tsx lines 62-73): when
currentSourceRef.current is non-null the node is stopped (the call sits in a
try/catch, so a node that already stopped raises nothing) and the reference
cleared; in every case setIsPlaying(false) and setAudioLoading(false) run.
The function is total: it never throws. -/
def stopTeacherSpeech (s : PlaybackState) : PlaybackState :=
  let s1 :=
    match s.current with
    | some h => { s with active := s.active.erase h, current := none }
    | none => s
  { s1 with isPlaying := false, audioLoading := false }

/-- Embeds the success path of playTeacherFullNarration (src/App.tsx lines
97-148) as one atomic step: the guard
`if (!result || audioLoading || isPlaying) return;` leaves the state
unchanged; otherwise a fresh source node is created, stored in
currentSourceRef, started (it joins the active set; the code stops no
previous node here), isPlaying becomes true and audioLoading, raised at the
start of the call, is back to false by its end. -/
def playTeacherFullNarration (s : PlaybackState) : PlaybackState :=
  if !s.hasResult || s.audioLoading || s.isPlaying then s
  else
    { s with current := some s.nextId
             active := s.nextId :: s.active
             isPlaying := true
             audioLoading := false
             nextId := s.nextId + 1 }

/-- Embeds the catch path of playTeacherFullNarration (src/App.tsx lines
142-147): when the speech request or decoding fails before a source starts,
the handler sets audioLoading and isPlaying to false; no node was started. -/
def playNarrationFailure (s : PlaybackState) : PlaybackState :=
  if !s.hasResult || s.audioLoading || s.isPlaying then s
  else { s with isPlaying := false, audioLoading := false }

/-- Embeds the onended handler of the running source (src/App.tsx lines
132-136), delivered for the node currentSourceRef points to: the node has
stopped emitting, and the handler sets isPlaying and audioLoading to false
and clears the reference. (Delivery of a stale ended event after the
reference was already replaced is an asynchronous artifact outside this
sequential model.) -/
def sourceEnded (s : PlaybackState) : PlaybackState :=
  match s.current with
  | some h => { s with active := s.active.erase h, current := none, isPlaying := false, audioLoading := false }
  | none => { s with isPlaying := false, audioLoading := false }

/-- The playback singleton invariant: while isPlaying, exactly the node held
by currentSourceRef is active; while not playing, no node is active. In
particular at most one playback handle is ever active. -/
def playbackInv (s : PlaybackState) : Bool :=
  if s.isPlaying then
    match s.current with
    | some h => s.active == [h]
    | none => false
  else s.active == []

/-- The writtenStyle record of src/types.ts lines 44-53. -/
structure WrittenStyle where
  topicName : String
  simpleMeaning : String
  stepByStep : List String
  easyExample : String
  shortSummary : String
deriving DecidableEq

/-- The ExplanationResponse interface of src/types.ts lines 44-53. -/
structure ExplanationResponse where
  spokenStyle : String
  writtenStyle : WrittenStyle
deriving DecidableEq

/-- The user-visible errors the ask flow can set: the validation message for
a submission with neither text nor image, and the generic message shown when
the remote explanation call fails. -/
inductive AskError where
  | emptyInput : AskError
  | remoteFailure : AskError
deriving DecidableEq

/-- The submission-relevant component state of the App variants: the loading
flag, the user-visible error, the stored explanation result, and (second
variant only) the stored diagram data URL. -/
structure AskState where
  loading : Bool
  error : Option AskError
  result : Option ExplanationResponse
  diagram : Option String
deriving DecidableEq

/-- JavaScript truthiness of a nullable string: null and the empty string are
falsy. -/
def jsTruthyOptStr : Option String → Bool
  | some s => !(s == "")
  | none => false

/-- The character set the ECMAScript TrimString operation strips: WhiteSpace
(tab U+0009, vertical tab U+000B, form feed U+000C, space U+0020, no-break
space U+00A0, zero-width no-break space U+FEFF, and every Unicode
Space_Separator: U+1680, U+2000 through U+200A, U+202F, U+205F, U+3000)
together with the LineTerminator characters (line feed U+000A, carriage
return U+000D, line separator U+2028, paragraph separator U+2029). -/
def jsWhitespace (c : Char) : Bool :=
  c == ' ' || c == '\t' || c == '\n' || c == '\r' ||
  c == '\x0B' || c == '\x0C' ||
  c == '\u00A0' || c == '\uFEFF' || c == '\u1680' ||
  ('\u2000' ≤ c && c ≤ '\u200A') ||
  c == '\u2028' || c == '\u2029' ||
  c == '\u202F' || c == '\u205F' || c == '\u3000'

/-- The JavaScript String.prototype.trim operation: removes the ECMAScript
whitespace characters from both ends of the string. -/
def jsTrim (s : String) : String :=
  ⟨((s.data.dropWhile jsWhitespace).reverse.dropWhile jsWhitespace).reverse⟩

/-- Embeds handleAsk of the first App variant (src/App.tsx lines 75-95) up to
its state updates, with the outcome of the awaited getTeacherExplanation call
supplied as `expl`. The guard `if (!inputText && !image)` sets the validation
error and returns before any remote call (second component false); otherwise
the call is issued (second component true), the result stored on success, the
generic error stored on failure, and loading cleared in the finally block.
The first variant has no diagram state; the field is untouched. -/
def handleAsk (inputText : String) (image : Option String)
    (expl : Except String ExplanationResponse) (s : AskState) : AskState × Bool :=
  if inputText == "" && !(jsTruthyOptStr image) then
    ({ s with error := some .emptyInput }, false)
  else
    match expl with
    | .ok r => ({ s with loading := false, error := none, result := some r }, true)
    | .error _ => ({ s with loading := false, error := some .remoteFailure, result := none }, true)

/-- Embeds handleAsk of the second App variant (src/App.tsx lines 536-567):
the input is trimmed first, the guard reads `if (!trimmedInput && !image)`;
after a successful explanation call an inner try/catch around
getTeacherDiagram (outcome `diag`) stores the diagram on success and only
logs a warning on failure, leaving result and error untouched; a failing
explanation call stores the generic error. Loading is cleared in the finally
block. The Bool reports whether the explanation call was issued. -/
def handleAsk536 (inputText : String) (image : Option String)
    (expl : Except String ExplanationResponse) (diag : Except String String)
    (s : AskState) : AskState × Bool :=
  let trimmedInput := jsTrim inputText
  if trimmedInput == "" && !(jsTruthyOptStr image) then
    ({ s with error := some .emptyInput }, false)
  else
    match expl with
    | .ok r =>
      match diag with
      | .ok d => ({ s with loading := false, error := none, result := some r, diagram := some d }, true)
      | .error _ => ({ s with loading := false, error := none, result := some r, diagram := none }, true)
    | .error _ => ({ s with loading := false, error := some .remoteFailure, result := none, diagram := none }, true)

/-- A concrete well-formed explanation result, used to instantiate the ask
flow at concrete inputs. -/
def sampleResponse : ExplanationResponse :=
  { spokenStyle := "Hello little one"
    writtenStyle :=
      { topicName := "Nouns"
        simpleMeaning := "A noun is a naming word"
        stepByStep := ["Find the naming word"]
        easyExample := "Cow is a noun"
        shortSummary := "Nouns name people places and things" } }

/-- The component state before any submission: nothing loading, no error, no
result, no diagram. -/
def askStart : AskState :=
  { loading := false, error := none, result := none, diagram := none }

/-- A concrete playback state in which narration handle 0 is playing. -/
def playingState : PlaybackState :=
  { isPlaying := true, audioLoading := false, current := some 0, active := [0], nextId := 1, hasResult := true }

/-- A concrete playback state in which nothing is playing or loading. -/
def idleState : PlaybackState :=
  { isPlaying := false, audioLoading := false, current := none, active := [], nextId := 5, hasResult := true }

/-- A concrete speech response parts list whose first part is text-only and
whose second part carries the audio payload. -/
def speechParts : List Part :=
  [{ text := some "greeting", inlineData := none },
   { text := none, inlineData := some "QVVESU8=" }]

/-- The Int16Array view holds one sample per byte pair; a trailing odd byte
is outside the view. -/
theorem bytesToInt16_length : ∀ (data : List Nat), (bytesToInt16 data).length = data.length / 2
  | [] => rfl
  | [_] => by simp [bytesToInt16]
  | _ :: _ :: rest => by
    simp only [bytesToInt16, List.length_cons, bytesToInt16_length rest]
    omega

/-- On an even-length byte list, sample k of the Int16Array view is the
little-endian reading of bytes 2k and 2k+1 (out-of-range positions give the
shared default 0 on both sides). -/
theorem bytesToInt16_getD : ∀ (data : List Nat), data.length % 2 = 0 → ∀ (k : Nat),
    (bytesToInt16 data).getD k 0 = toInt16 (data.getD (2 * k) 0) (data.getD (2 * k + 1) 0)
  | [], _, k => by simp [bytesToInt16, toInt16]
  | [_], h, _ => by simp at h
  | lo :: hi :: rest, h, 0 => by simp [bytesToInt16]
  | lo :: hi :: rest, h, (k + 1) => by
    have h2 : rest.length % 2 = 0 := by
      simp only [List.length_cons] at h
      omega
    have e1 : 2 * (k + 1) = 2 * k + 1 + 1 := by ring
    have e2 : 2 * (k + 1) + 1 = 2 * k + 1 + 1 + 1 := by ring
    simp only [bytesToInt16, List.getD_cons_succ, e1, e2]
    exact bytesToInt16_getD rest h2 k

/-- A little-endian 16-bit reading of two genuine bytes lies in the signed
16-bit range. -/
theorem toInt16_bounds (lo hi : Nat) (hlo : lo < 256) (hhi : hi < 256) :
    -32768 ≤ toInt16 lo hi ∧ toInt16 lo hi ≤ 32767 := by
  simp only [toInt16]
  split <;> omega

/-- A positional read with default 0 from a list of bytes stays below 256. -/
theorem getD_lt_of_forall_lt : ∀ (l : List Nat), (∀ b ∈ l, b < 256) → ∀ (idx : Nat),
    l.getD idx 0 < 256
  | [], _, _ => by simp
  | x :: xs, hb, 0 => by simpa using hb x (List.mem_cons_self x xs)
  | x :: xs, hb, (idx + 1) => by
    simpa using getD_lt_of_forall_lt xs (fun b hbm => hb b (List.mem_cons_of_mem x hbm)) idx

/-- Dividing a signed 16-bit value by 32768 lands in the interval from -1
inclusive to 1 exclusive. -/
theorem sample_range (n : Int) (h1 : -32768 ≤ n) (h2 : n ≤ 32767) :
    -1 ≤ (n : ℚ) / 32768 ∧ (n : ℚ) / 32768 < 1 := by
  constructor
  · rw [le_div_iff₀ (by norm_num : (0 : ℚ) < 32768)]
    have hc : (-32768 : ℚ) ≤ (n : ℚ) := by exact_mod_cast h1
    linarith
  · rw [div_lt_one (by norm_num : (0 : ℚ) < 32768)]
    have hc : (n : ℚ) ≤ 32767 := by exact_mod_cast h2
    linarith

/-- Positional read with default from a mapped range: inside the range it is
the function value. -/
theorem getD_map_range {α : Type} (n i : Nat) (f : Nat → α) (d : α) (hi : i < n) :
    ((List.range n).map f).getD i d = f i := by
  rw [List.getD_eq_getElem?_getD, List.getElem?_map, List.getElem?_range hi]
  rfl

/-- Sample access in a decoded buffer: channel c, frame i reads the
interleaved Int16Array at position i * numChannels + c, divided by 32768. -/
theorem decode_sample (data : List Nat) (sr ch c i : Nat) (hc : c < ch)
    (hi : i < (bytesToInt16 data).length / ch) :
    ((decodeAudioData data sr ch).channels.getD c []).getD i 0 =
      ((bytesToInt16 data).getD (i * ch + c) 0 : ℚ) / 32768 := by
  have h1 : (decodeAudioData data sr ch).channels =
      (List.range ch).map (fun channel =>
        (List.range ((bytesToInt16 data).length / ch)).map
          (fun j => ((bytesToInt16 data).getD (j * ch + channel) 0 : ℚ) / 32768)) := rfl
  rw [h1, getD_map_range ch c _ [] hc, getD_map_range _ i _ 0 hi]

/-- C1 counterexample: the backend response text "\x7b\x7d" parses to the
empty JSON object, which is missing every required writtenStyle field, yet
getTeacherExplanation returns it as a value instead of raising an error:
the claim that a response missing a required field raises
MalformedResponseError is false of the code, which performs no field
validation after JSON.parse. -/
theorem c1_counterexample :
    getTeacherExplanation (.ok (Json.obj [])) = .ok (Json.obj []) ∧
    hasAllWrittenStyle (Json.obj []) = false :=
  ⟨rfl, rfl⟩

/-- C1 (amended): a JSON parse failure propagates to the caller as the raw
thrown parse error (nothing wraps it into a MalformedResponseError), and a
successfully parsed response is returned without any field validation — in
particular a parsed value missing required writtenStyle fields is returned
rather than rejected. -/
theorem getTeacherExplanation_no_validation (j : Json) (e : String)
    (hj : hasAllWrittenStyle j = false) :
    getTeacherExplanation (.ok j) = .ok j ∧
    getTeacherExplanation (.error e) = .error e :=
  ⟨rfl, rfl⟩

/-- C1 witness: the amended theorem at the empty JSON object and a concrete
parse error. -/
theorem c1_witness :
    hasAllWrittenStyle (Json.obj []) = false ∧
    (getTeacherExplanation (.ok (Json.obj [])) = .ok (Json.obj []) ∧
     getTeacherExplanation (.error "SyntaxError: Unexpected end of JSON input") =
       .error "SyntaxError: Unexpected end of JSON input") :=
  ⟨rfl, getTeacherExplanation_no_validation (Json.obj [])
          "SyntaxError: Unexpected end of JSON input" rfl⟩

/-- C2: on every byte sequence whose length is a multiple of 2 times the
channel count, decodeAudioData produces byte-length / 2 / channelCount
frames, one sample list per channel, and channel c frame i is the
little-endian signed 16-bit integer at interleaved position
i * channelCount + c divided by 32768, a value in the interval from -1
inclusive to 1 exclusive. -/
theorem decodeAudioData_spec (data : List Nat) (sr ch : Nat) (hch : 0 < ch)
    (hb : ∀ b ∈ data, b < 256) (hlen : data.length % (2 * ch) = 0) :
    (decodeAudioData data sr ch).frameCount = data.length / 2 / ch ∧
    (decodeAudioData data sr ch).channels.length = ch ∧
    (∀ c, c < ch → ∀ i, i < data.length / 2 / ch →
      ((decodeAudioData data sr ch).channels.getD c []).getD i 0 =
        (toInt16 (data.getD (2 * (i * ch + c)) 0) (data.getD (2 * (i * ch + c) + 1) 0) : ℚ) / 32768 ∧
      -1 ≤ ((decodeAudioData data sr ch).channels.getD c []).getD i 0 ∧
      ((decodeAudioData data sr ch).channels.getD c []).getD i 0 < 1) := by
  have hlen2 : data.length % 2 = 0 := by
    have h1 : (2 * ch) ∣ data.length := Nat.dvd_of_mod_eq_zero hlen
    have h2 : (2 : Nat) ∣ data.length := dvd_trans (Dvd.intro ch rfl) h1
    omega
  have hFC : (decodeAudioData data sr ch).frameCount = data.length / 2 / ch := by
    show (bytesToInt16 data).length / ch = data.length / 2 / ch
    rw [bytesToInt16_length]
  refine ⟨hFC, ?_, ?_⟩
  · show ((List.range ch).map _).length = ch
    rw [List.length_map, List.length_range]
  · intro c hc i hi
    have hi2 : i < (bytesToInt16 data).length / ch := by
      rw [bytesToInt16_length]; exact hi
    have hs := decode_sample data sr ch c i hc hi2
    have hv := bytesToInt16_getD data hlen2 (i * ch + c)
    have hbounds := toInt16_bounds (data.getD (2 * (i * ch + c)) 0)
      (data.getD (2 * (i * ch + c) + 1) 0)
      (getD_lt_of_forall_lt data hb _) (getD_lt_of_forall_lt data hb _)
    have hr := sample_range _ hbounds.1 hbounds.2
    rw [hs, hv]
    exact ⟨rfl, hr.1, hr.2⟩

/-- C2 witness: the theorem at the concrete stereo byte sequence
1 0 2 0 3 0 4 0: two frames, channel 0 samples 1/32768 and 3/32768,
channel 1 samples 2/32768 and 4/32768. -/
theorem c2_witness :
    ((0 : Nat) < 2 ∧ (∀ b ∈ [1, 0, 2, 0, 3, 0, 4, 0], b < 256) ∧
      [1, 0, 2, 0, 3, 0, 4, 0].length % (2 * 2) = 0) ∧
    ((decodeAudioData [1, 0, 2, 0, 3, 0, 4, 0] 24000 2).frameCount =
        [1, 0, 2, 0, 3, 0, 4, 0].length / 2 / 2 ∧
     (decodeAudioData [1, 0, 2, 0, 3, 0, 4, 0] 24000 2).channels.length = 2 ∧
     (∀ c, c < 2 → ∀ i, i < [1, 0, 2, 0, 3, 0, 4, 0].length / 2 / 2 →
       ((decodeAudioData [1, 0, 2, 0, 3, 0, 4, 0] 24000 2).channels.getD c []).getD i 0 =
         (toInt16 ([1, 0, 2, 0, 3, 0, 4, 0].getD (2 * (i * 2 + c)) 0)
            ([1, 0, 2, 0, 3, 0, 4, 0].getD (2 * (i * 2 + c) + 1) 0) : ℚ) / 32768 ∧
       -1 ≤ ((decodeAudioData [1, 0, 2, 0, 3, 0, 4, 0] 24000 2).channels.getD c []).getD i 0 ∧
       ((decodeAudioData [1, 0, 2, 0, 3, 0, 4, 0] 24000 2).channels.getD c []).getD i 0 < 1)) :=
  ⟨⟨by decide, by decide, by decide⟩,
   decodeAudioData_spec [1, 0, 2, 0, 3, 0, 4, 0] 24000 2 (by decide) (by decide) (by decide)⟩

/-- C3 counterexample: the odd-length mono byte array 7 0 9 does not make
decodeAudioData fail — the function (src/App.tsx lines 17-34) returns a
buffer, silently dropping the trailing byte; and for the second variant
(lines 450-467) the stereo byte array 1 0 2 0 3 0, whose length 6 is not a
multiple of sample size times channel count (4), is decoded without any
error. The claimed InvalidAudioDataError failure does not happen. -/
theorem c3_counterexample :
    decodeAudioData [7, 0, 9] 24000 1 =
      { numChannels := 1, frameCount := 1, sampleRate := 24000,
        channels := [[(7 : ℚ) / 32768]] } ∧
    decodeAudioData450 [1, 0, 2, 0, 3, 0] 24000 2 =
      .ok (decodeAudioData [1, 0, 2, 0, 3, 0] 24000 2) := by
  constructor
  · simp [decodeAudioData, bytesToInt16, toInt16, List.range_succ]
  · rfl

/-- C3 (amended): decodeAudioData validates nothing. The first variant
(src/App.tsx lines 17-34) is total: any byte sequence, of any length, yields
a buffer with byte-length / 2 / channelCount frames, the trailing bytes of a
non-multiple length silently dropped. The second variant (lines 450-467)
fails only when the byte length is odd — with the Int16Array constructor
RangeError, not an InvalidAudioDataError — and on every even length, a
multiple of 2 times the channel count or not, returns the same truncated
buffer as the first variant. -/
theorem decodeAudioData_no_validation (data : List Nat) (sr ch : Nat)
    (hodd : data.length % 2 = 1) :
    (decodeAudioData data sr ch).frameCount = data.length / 2 / ch ∧
    (∃ e, decodeAudioData450 data sr ch = .error e) ∧
    (∀ d2 : List Nat, d2.length % 2 = 0 →
      decodeAudioData450 d2 sr ch = .ok (decodeAudioData d2 sr ch)) := by
  refine ⟨?_, ?_, ?_⟩
  · show (bytesToInt16 data).length / ch = data.length / 2 / ch
    rw [bytesToInt16_length]
  · exact ⟨_, by rw [decodeAudioData450, if_pos hodd]⟩
  · intro d2 h2
    rw [decodeAudioData450, if_neg (by omega)]

/-- C3 witness: the amended theorem at the odd-length mono input 7 0 9. -/
theorem c3_witness :
    [7, 0, 9].length % 2 = 1 ∧
    ((decodeAudioData [7, 0, 9] 24000 1).frameCount = [7, 0, 9].length / 2 / 1 ∧
     (∃ e, decodeAudioData450 [7, 0, 9] 24000 1 = .error e) ∧
     (∀ d2 : List Nat, d2.length % 2 = 0 →
       decodeAudioData450 d2 24000 1 = .ok (decodeAudioData d2 24000 1))) :=
  ⟨by decide, decodeAudioData_no_validation [7, 0, 9] 24000 1 (by decide)⟩

/-- C9: decodeAudioData is deterministic — both variants are functions of
their inputs alone, so decoding equal byte sequences with equal sample rates
and channel counts yields identical per-channel sample lists. -/
theorem decodeAudioData_deterministic (d1 d2 : List Nat) (sr1 sr2 ch1 ch2 : Nat)
    (hd : d1 = d2) (hsr : sr1 = sr2) (hch : ch1 = ch2) :
    decodeAudioData d1 sr1 ch1 = decodeAudioData d2 sr2 ch2 ∧
    decodeAudioData450 d1 sr1 ch1 = decodeAudioData450 d2 sr2 ch2 := by
  subst hd; subst hsr; subst hch
  exact ⟨rfl, rfl⟩

/-- C9 witness: the theorem at a concrete repeated decode. -/
theorem c9_witness :
    ([52, 18] = [52, 18] ∧ (24000 : Nat) = 24000 ∧ (1 : Nat) = 1) ∧
    (decodeAudioData [52, 18] 24000 1 = decodeAudioData [52, 18] 24000 1 ∧
     decodeAudioData450 [52, 18] 24000 1 = decodeAudioData450 [52, 18] 24000 1) :=
  ⟨⟨rfl, rfl, rfl⟩, decodeAudioData_deterministic [52, 18] [52, 18] 24000 24000 1 1 rfl rfl rfl⟩

/-- C4 counterexample: the whitespace-only input " " is non-empty text, yet
with no image the second handleAsk variant (src/App.tsx lines 536-541) trims
it to the empty string and rejects the submission — no remote call is issued
and the validation error is set — refuting the claim that every submission
with non-empty text and no image is accepted. -/
theorem c4_counterexample :
    (handleAsk536 " " none (.ok sampleResponse) (.ok "diagram") askStart).2 = false ∧
    (handleAsk536 " " none (.ok sampleResponse) (.ok "diagram") askStart).1.error = some .emptyInput ∧
    " " ≠ "" := by
  refine ⟨?_, ?_, by decide⟩ <;> decide

/-- C4 (amended): a submission with empty text and no image is rejected by
both handleAsk variants with the user-visible validation error and without
issuing the remote call (and the embedded flows are total, so nothing is
thrown); the first variant (src/App.tsx lines 75-79) accepts every
submission with non-empty text, while the second variant (lines 536-541)
trims the text first, so it accepts exactly the submissions whose text is
non-empty after trimming and also rejects whitespace-only text without an
image. -/
theorem handleAsk_validation (text : String) (img : Option String)
    (expl : Except String ExplanationResponse) (diag : Except String String)
    (s : AskState) :
    ((text = "" ∧ jsTruthyOptStr img = false) →
      (handleAsk text img expl s).2 = false ∧
      (handleAsk text img expl s).1.error = some .emptyInput ∧
      (handleAsk536 text img expl diag s).2 = false ∧
      (handleAsk536 text img expl diag s).1.error = some .emptyInput) ∧
    ((jsTrim text = "" ∧ jsTruthyOptStr img = false) →
      (handleAsk536 text img expl diag s).2 = false ∧
      (handleAsk536 text img expl diag s).1.error = some .emptyInput) ∧
    (text ≠ "" → (handleAsk text img expl s).2 = true) ∧
    (jsTrim text ≠ "" → (handleAsk536 text img expl diag s).2 = true) := by
  refine ⟨?_, ?_, ?_, ?_⟩
  · rintro ⟨h1, h2⟩
    subst h1
    have ht : jsTrim "" = "" := by decide
    refine ⟨?_, ?_, ?_, ?_⟩ <;> simp [handleAsk, handleAsk536, h2, ht]
  · rintro ⟨h1, h2⟩
    refine ⟨?_, ?_⟩ <;> simp [handleAsk536, h1, h2]
  · intro h1
    have hb : (text == "") = false := beq_eq_false_iff_ne.mpr h1
    cases expl with
    | ok r => simp [handleAsk, hb]
    | error e => simp [handleAsk, hb]
  · intro h1
    have hb : (jsTrim text == "") = false := beq_eq_false_iff_ne.mpr h1
    cases expl with
    | ok r =>
      cases diag with
      | ok d => simp [handleAsk536, hb]
      | error e => simp [handleAsk536, hb]
    | error e => simp [handleAsk536, hb]

/-- C4 witness: the amended theorem at the empty submission (rejected, no
call) and at a genuine question (accepted). -/
theorem c4_witness :
    ((handleAsk "" none (.ok sampleResponse) askStart).2 = false ∧
     (handleAsk "" none (.ok sampleResponse) askStart).1.error = some .emptyInput ∧
     (handleAsk536 "" none (.ok sampleResponse) (.ok "d") askStart).2 = false ∧
     (handleAsk536 "" none (.ok sampleResponse) (.ok "d") askStart).1.error = some .emptyInput) ∧
    (handleAsk "what is a noun" none (.ok sampleResponse) askStart).2 = true :=
  ⟨(handleAsk_validation "" none (.ok sampleResponse) (.ok "d") askStart).1 ⟨rfl, rfl⟩,
   (handleAsk_validation "what is a noun" none (.ok sampleResponse) (.ok "d") askStart).2.2.1
     (by decide)⟩

/-- C6: for every submission that passes the validation guard at src/App.tsx
line 538 — text non-empty after trimming, or an image present — when the
explanation call succeeds and the subsequent diagram call fails, the second
handleAsk variant (src/App.tsx lines 549-567) issues the explanation call and
still stores the explanation result, surfaces no error, and clears the
loading flag: the diagram failure is swallowed by the inner catch, which only
logs. This covers text submissions and image-only submissions alike. -/
theorem diagram_failure_swallowed (text : String) (img : Option String)
    (r : ExplanationResponse) (e : String) (s : AskState)
    (h : jsTrim text ≠ "" ∨ jsTruthyOptStr img = true) :
    (handleAsk536 text img (.ok r) (.error e) s).1.result = some r ∧
    (handleAsk536 text img (.ok r) (.error e) s).1.error = none ∧
    (handleAsk536 text img (.ok r) (.error e) s).1.loading = false ∧
    (handleAsk536 text img (.ok r) (.error e) s).2 = true := by
  cases h with
  | inl ht =>
    have hb : (jsTrim text == "") = false := beq_eq_false_iff_ne.mpr ht
    refine ⟨?_, ?_, ?_, ?_⟩ <;> simp [handleAsk536, hb]
  | inr hi =>
    refine ⟨?_, ?_, ?_, ?_⟩ <;> simp [handleAsk536, hi]

/-- C6 witness: the theorem at a concrete image-only submission (empty text,
image present) whose diagram generation fails, and at a concrete text
question whose diagram generation fails. -/
theorem c6_witness :
    ((jsTrim "" ≠ "" ∨ jsTruthyOptStr (some "data:image/jpeg;base64,AAAA") = true) ∧
     ((handleAsk536 "" (some "data:image/jpeg;base64,AAAA") (.ok sampleResponse) (.error "boom") askStart).1.result = some sampleResponse ∧
      (handleAsk536 "" (some "data:image/jpeg;base64,AAAA") (.ok sampleResponse) (.error "boom") askStart).1.error = none ∧
      (handleAsk536 "" (some "data:image/jpeg;base64,AAAA") (.ok sampleResponse) (.error "boom") askStart).1.loading = false ∧
      (handleAsk536 "" (some "data:image/jpeg;base64,AAAA") (.ok sampleResponse) (.error "boom") askStart).2 = true)) ∧
    ((handleAsk536 "what is rain" none (.ok sampleResponse) (.error "boom") askStart).1.result = some sampleResponse ∧
     (handleAsk536 "what is rain" none (.ok sampleResponse) (.error "boom") askStart).1.error = none ∧
     (handleAsk536 "what is rain" none (.ok sampleResponse) (.error "boom") askStart).1.loading = false ∧
     (handleAsk536 "what is rain" none (.ok sampleResponse) (.error "boom") askStart).2 = true) :=
  ⟨⟨Or.inr (by decide),
    diagram_failure_swallowed "" (some "data:image/jpeg;base64,AAAA") sampleResponse "boom"
      askStart (Or.inr (by decide))⟩,
   diagram_failure_swallowed "what is rain" none sampleResponse "boom" askStart
     (Or.inl (by decide))⟩

/-- Any state satisfying the playback invariant is either idle with no
active node, or playing exactly the node the source reference holds. -/
theorem playbackInv_cases (s : PlaybackState) (h : playbackInv s = true) :
    (s.isPlaying = false ∧ s.active = []) ∨
    (∃ hdl, s.isPlaying = true ∧ s.current = some hdl ∧ s.active = [hdl]) := by
  unfold playbackInv at h
  cases hp : s.isPlaying with
  | false =>
    rw [hp] at h
    simp at h
    exact Or.inl ⟨rfl, h⟩
  | true =>
    rw [hp] at h
    simp at h
    cases hc : s.current with
    | none => rw [hc] at h; simp at h
    | some hdl =>
      rw [hc] at h
      simp at h
      exact Or.inr ⟨hdl, rfl, rfl, h⟩

/-- C5 counterexample: in the concrete state where narration handle 0 is
playing, invoking playTeacherFullNarration leaves the state entirely
unchanged: handle 0 is still the active handle, it was never stopped, and no
new handle was started (nextId did not advance) — refuting the claim that the
previously active handle is stopped before a new one starts. -/
theorem c5_counterexample :
    playTeacherFullNarration playingState = playingState ∧
    playingState.isPlaying = true ∧
    (playTeacherFullNarration playingState).active = [0] ∧
    (0 : Nat) ∈ (playTeacherFullNarration playingState).active ∧
    (playTeacherFullNarration playingState).nextId = playingState.nextId := by
  refine ⟨by decide, by decide, by decide, by decide, by decide⟩

/-- C5 (amended): at most one audio playback handle is ever active — the
playback invariant (while playing, exactly the referenced node is active;
while idle, none is) is preserved by every playback operation, with ended
events delivered for the current source — but invoking play while a narration
is already playing achieves this by doing nothing: the early-return guard
leaves the previously active handle playing, stops nothing, and starts no new
handle. -/
theorem playback_singleton (s : PlaybackState) :
    (s.isPlaying = true → playTeacherFullNarration s = s) ∧
    (playbackInv s = true →
      s.active.length ≤ 1 ∧
      playbackInv (stopTeacherSpeech s) = true ∧
      playbackInv (playTeacherFullNarration s) = true ∧
      playbackInv (playNarrationFailure s) = true ∧
      playbackInv (sourceEnded s) = true) := by
  constructor
  · intro hp
    simp [playTeacherFullNarration, hp]
  · intro hinv
    rcases playbackInv_cases s hinv with ⟨hp, ha⟩ | ⟨hdl, hp, hc, ha⟩
    · refine ⟨by simp [ha], ?_, ?_, ?_, ?_⟩
      · cases hc2 : s.current with
        | none => simp [stopTeacherSpeech, playbackInv, hc2, ha]
        | some h2 => simp [stopTeacherSpeech, playbackInv, hc2, ha]
      · unfold playTeacherFullNarration
        split
        · exact hinv
        · simp [playbackInv, ha]
      · unfold playNarrationFailure
        split
        · exact hinv
        · simp [playbackInv, ha]
      · cases hc2 : s.current with
        | none => simp [sourceEnded, playbackInv, hc2, ha]
        | some h2 => simp [sourceEnded, playbackInv, hc2, ha]
    · refine ⟨by simp [ha], ?_, ?_, ?_, ?_⟩
      · simp [stopTeacherSpeech, playbackInv, hc, ha]
      · simp [playTeacherFullNarration, hp, playbackInv, hc, ha, hinv]
      · simp [playNarrationFailure, hp, playbackInv, hc, ha, hinv]
      · simp [sourceEnded, playbackInv, hc, ha]

/-- C5 witness: the amended theorem at the concrete playing state. -/
theorem c5_witness :
    (playingState.isPlaying = true → playTeacherFullNarration playingState = playingState) ∧
    (playbackInv playingState = true →
      playingState.active.length ≤ 1 ∧
      playbackInv (stopTeacherSpeech playingState) = true ∧
      playbackInv (playTeacherFullNarration playingState) = true ∧
      playbackInv (playNarrationFailure playingState) = true ∧
      playbackInv (sourceEnded playingState) = true) :=
  playback_singleton playingState

/-- C8: stopTeacherSpeech is an idempotent halt. When no playback is active
(no source reference, not playing) it raises nothing (the embedded function
is total; in the source even a stop on a stale node is caught) and the
playback state stays not-playing with the active set untouched; when a node
is playing it is removed from the active set, the reference is cleared and
the state transitions to not-playing. -/
theorem stopTeacherSpeech_idempotent (s : PlaybackState) :
    (s.current = none → s.isPlaying = false →
      (stopTeacherSpeech s).isPlaying = false ∧
      (stopTeacherSpeech s).current = none ∧
      (stopTeacherSpeech s).active = s.active) ∧
    (∀ hdl, s.current = some hdl → s.active = [hdl] →
      (stopTeacherSpeech s).active = [] ∧
      (stopTeacherSpeech s).isPlaying = false ∧
      (stopTeacherSpeech s).current = none) := by
  constructor
  · intro hc hp
    simp [stopTeacherSpeech, hc]
  · intro hdl hc ha
    simp [stopTeacherSpeech, hc, ha]

/-- C8 witness: the theorem at the concrete idle state (no-op) and at the
concrete playing state (halt). -/
theorem c8_witness :
    ((stopTeacherSpeech idleState).isPlaying = false ∧
     (stopTeacherSpeech idleState).current = none ∧
     (stopTeacherSpeech idleState).active = idleState.active) ∧
    ((stopTeacherSpeech playingState).active = [] ∧
     (stopTeacherSpeech playingState).isPlaying = false ∧
     (stopTeacherSpeech playingState).current = none) :=
  ⟨(stopTeacherSpeech_idempotent idleState).1 rfl rfl,
   (stopTeacherSpeech_idempotent playingState).2 0 rfl rfl⟩

/-- C7 counterexample: in a speech response whose first part is text-only
and whose second part carries the audio payload, the aiService.ts variant of
getTeacherSpeech inspects only the first part and fails, even though an audio
payload is present in the parts (the part_000 variant does return it) —
refuting the claim that the returned data is the first audio payload found
anywhere in the response parts. -/
theorem c7_counterexample :
    getTeacherSpeech (some speechParts) = .error "no audio data" ∧
    getTeacherSpeech000 (some speechParts) = .ok "QVVESU8=" ∧
    (speechParts.find? partHasAudioData).isSome = true := by
  refine ⟨rfl, rfl, rfl⟩

/-- C7 (amended): when no part carries a non-empty audio payload (or the
parts chain is absent) both getTeacherSpeech variants fail rather than
return; the part_000 variant returns the data of the first part carrying an
audio payload, wherever it sits in the parts list; the aiService.ts variant
only returns audio sitting in the very first part, and fails whenever the
first part carries none — even if a later part does. -/
theorem getTeacherSpeech_firstAudio (parts : List Part) :
    (parts.find? partHasAudioData = none →
      (∃ e1, getTeacherSpeech000 (some parts) = .error e1) ∧
      (∃ e2, getTeacherSpeech (some parts) = .error e2)) ∧
    (∀ p, parts.find? partHasAudioData = some p →
      ∃ d, p.inlineData = some d ∧ getTeacherSpeech000 (some parts) = .ok d) ∧
    (∀ p d, parts.head? = some p → p.inlineData = some d → d ≠ "" →
      getTeacherSpeech (some parts) = .ok d) ∧
    (∀ p, parts.head? = some p → partHasAudioData p = false →
      ∃ e3, getTeacherSpeech (some parts) = .error e3) ∧
    ((∃ e4, getTeacherSpeech none = .error e4) ∧
     (∃ e5, getTeacherSpeech000 none = .error e5)) := by
  refine ⟨?_, ?_, ?_, ?_, ⟨"no audio data", rfl⟩, ⟨"no response received", rfl⟩⟩
  · intro hf
    constructor
    · exact ⟨"audio data was missing", by simp [getTeacherSpeech000, hf]⟩
    · cases parts with
      | nil => exact ⟨"no audio data", rfl⟩
      | cons p rest =>
        have hp : partHasAudioData p = false := by
          have hm := List.find?_eq_none.mp hf p (List.mem_cons_self p rest)
          simpa using hm
        cases hd : p.inlineData with
        | none => exact ⟨"no audio data", by simp [getTeacherSpeech, hd]⟩
        | some d =>
          have hdeq : (d == "") = true := by
            unfold partHasAudioData at hp
            rw [hd] at hp
            simpa using hp
          exact ⟨"no audio data", by simp [getTeacherSpeech, hd, hdeq]⟩
  · intro p hf
    cases hd : p.inlineData with
    | none =>
      have hp := List.find?_some hf
      unfold partHasAudioData at hp
      rw [hd] at hp
      simp at hp
    | some d =>
      exact ⟨d, rfl, by simp [getTeacherSpeech000, hf, hd]⟩
  · intro p d hh hd hne
    have hb : (d == "") = false := beq_eq_false_iff_ne.mpr hne
    simp [getTeacherSpeech, hh, hd, hb]
  · intro p hh hp
    cases hd : p.inlineData with
    | none => exact ⟨"no audio data", by simp [getTeacherSpeech, hh, hd]⟩
    | some d =>
      have hdeq : (d == "") = true := by
        unfold partHasAudioData at hp
        rw [hd] at hp
        simpa using hp
      exact ⟨"no audio data", by simp [getTeacherSpeech, hh, hd, hdeq]⟩

/-- C7 witness: the amended theorem at a one-part response carrying audio —
the part_000 variant extracts exactly that payload. -/
theorem c7_witness :
    ∃ d, (Part.mk none (some "QQ==")).inlineData = some d ∧
      getTeacherSpeech000 (some [Part.mk none (some "QQ==")]) = .ok d :=
  (getTeacherSpeech_firstAudio [Part.mk none (some "QQ==")]).2.1
    (Part.mk none (some "QQ==")) (by decide)

/-- C10: when the question text is empty, getTeacherExplanation substitutes
the fixed default prompt asking the model to explain the image (in both
client variants), and the text part it sends is never the empty string. -/
theorem defaultPrompt_substitution (text : String) (h : text = "") :
    buildTextPart text = "Topic/Question: Please explain what is in the image" ∧
    buildTextPart000 text = "Topic/Homework: Please explain the content in the image" ∧
    (∀ t : String, buildTextPart t ≠ "") ∧
    (∀ t img, (explanationParts t img).head? =
      some { text := some (buildTextPart t), inlineData := none }) := by
  subst h
  refine ⟨rfl, rfl, ?_, ?_⟩
  · intro t h0
    unfold buildTextPart at h0
    have hl := congrArg String.length h0
    rw [String.length_append] at hl
    have h16 : ("Topic/Question: " : String).length = 16 := by decide
    have hz : ("" : String).length = 0 := rfl
    rw [h16, hz] at hl
    omega
  · intro t img
    rfl

/-- C10 witness: the theorem at the empty question text. -/
theorem c10_witness :
    ("" : String) = "" ∧
    (buildTextPart "" = "Topic/Question: Please explain what is in the image" ∧
     buildTextPart000 "" = "Topic/Homework: Please explain the content in the image" ∧
     (∀ t : String, buildTextPart t ≠ "") ∧
     (∀ t img, (explanationParts t img).head? =
       some { text := some (buildTextPart t), inlineData := none })) :=
  ⟨rfl, defaultPrompt_substitution "" rfl⟩

end AsthaApp
